import Mathlib

/-!
Verification of the py-icare-subtype repository against its natural-language
specification.  The Python sources under `src/icare/` are shallowly embedded:
pure row-wise pandas transformations become Lean functions over explicit
record types, machine floats become `ℚ` (with `Option ℚ` where IEEE NaN or
infinity can occur: `none` stands for NaN / missing, and for `time_of_onset`
`none` stands for `inf`), and Python exceptions become `Except String`.
Dynamically typed Python arguments are embedded by the small universe
`PyAtom`/`PyVal` below, which covers the value shapes that actually flow
through the functions under study (None, int, float, str, and flat lists).
-/

namespace ICare

/-- An atomic Python value, as needed by the argument validators:
`None`, an integer, a rational stand-in for a float, or a string. -/
inductive PyAtom where
  | aNone : PyAtom
  | aInt : ℤ → PyAtom
  | aFloat : ℚ → PyAtom
  | aStr : String → PyAtom
deriving DecidableEq, Repr

/-- A Python value: either an atom or a flat list of atoms.  The repository
only ever passes flat lists (of ages, of risks) to the functions embedded
here, so one level of nesting suffices. -/
inductive PyVal where
  | atom : PyAtom → PyVal
  | pyList : List PyAtom → PyVal
deriving DecidableEq, Repr

/-- Structural decidable equality on `Except`, written so that it reduces in
the kernel. -/
def exceptDecEq {ε α : Type} [DecidableEq ε] [DecidableEq α] :
    (a b : Except ε α) → Decidable (a = b)
  | .error e, .error f =>
    match decEq e f with
    | isTrue h => isTrue (congrArg Except.error h)
    | isFalse h => isFalse (fun hh => h (by cases hh; rfl))
  | .error _, .ok _ => isFalse (fun hh => Except.noConfusion hh)
  | .ok _, .error _ => isFalse (fun hh => Except.noConfusion hh)
  | .ok a, .ok b =>
    match decEq a b with
    | isTrue h => isTrue (congrArg Except.ok h)
    | isFalse h => isFalse (fun hh => h (by cases hh; rfl))

instance {ε α : Type} [DecidableEq ε] [DecidableEq α] : DecidableEq (Except ε α) :=
  exceptDecEq

/-- Python `x is None`. -/
def PyVal.isNone : PyVal → Bool
  | .atom .aNone => true
  | _ => false

/-- Python `isinstance(x, int)`. -/
def PyVal.isInt : PyVal → Bool
  | .atom (.aInt _) => true
  | _ => false

/-- Python `isinstance(x, list)`. -/
def PyVal.isList : PyVal → Bool
  | .pyList _ => true
  | _ => false

/-- Python `isinstance(x, str)`. -/
def PyVal.isStr : PyVal → Bool
  | .atom (.aStr _) => true
  | _ => false

/-- Python `isinstance(x, int)` on a list element. -/
def PyAtom.isInt : PyAtom → Bool
  | .aInt _ => true
  | _ => false

/-- Embedding of `check_errors.check_age_intervals` (check_errors.py lines
112-129).  The source tests
`not isinstance(apply_age_start, int) or not isinstance(apply_age_start, list)`
as its first guard (and the analogous test for the interval length next), then
checks the elements of list arguments. -/
def check_age_intervals (apply_age_start apply_age_interval_length : PyVal) :
    Except String Unit :=
  if !apply_age_start.isInt || !apply_age_start.isList then
    .error "ERROR: apply_age_start must be an integer or a list of integers."
  else if !apply_age_interval_length.isInt || !apply_age_interval_length.isList then
    .error "ERROR: apply_age_interval_length must be an integer or a list of integers."
  else if apply_age_start.isList &&
      (match apply_age_start with
        | .pyList xs => xs.any (fun x => ! x.isInt)
        | _ => false) then
    .error "ERROR: apply_age_start must be an integer or a list of integers."
  else if apply_age_interval_length.isList &&
      (match apply_age_interval_length with
        | .pyList xs => xs.any (fun x => ! x.isInt)
        | _ => false) then
    .error "ERROR: apply_age_interval_length must be an integer or a list of integers."
  else .ok ()

/-- A data frame as seen by `check_family_history`: a list of columns, each a
name (an arbitrary hashable Python value) paired with its entries.  Entries
are the family-history codes: `none` models a missing value (NaN), `some k`
an integer-valued entry (the source casts them with `astype(int)`). -/
structure FHFrame where
  cols : List (PyVal × List (Option ℤ))
deriving DecidableEq

/-- The column labels of the frame (pandas `df.columns`). -/
def FHFrame.columns (df : FHFrame) : List PyVal := df.cols.map (·.1)

/-- Column lookup by label; defaults to the empty column (unreachable when
membership in `columns` was checked first, as the source does). -/
def FHFrame.getCol (df : FHFrame) (name : PyVal) : List (Option ℤ) :=
  ((df.cols.find? (fun c => c.1 = name)).map (·.2)).getD []

/-- pandas `series.dropna().unique()`: the distinct non-missing entries. -/
def dropnaUnique (l : List (Option ℤ)) : List ℤ :=
  (l.filterMap id).dedup

/-- Embedding of `check_errors.check_family_history` (check_errors.py lines
145-168).  The source raises the string-type error when
`isinstance(model_family_history_variable_name, str)` holds, then checks
column membership in both frames, then that the distinct non-missing values
of the column are exactly binary (length two, containing both 0 and 1). -/
def check_family_history (model_family_history_variable_name : PyVal)
    (model_reference_dataset apply_covariate_profile : FHFrame) :
    Except String Unit :=
  if model_family_history_variable_name.isStr then
    .error "ERROR: model_family_history_variable_name must be a string."
  else if model_family_history_variable_name ∉ model_reference_dataset.columns then
    .error "ERROR: family history variable must be a column of model_reference_dataset."
  else if model_family_history_variable_name ∉ apply_covariate_profile.columns then
    .error "ERROR: family history variable must be a column of apply_covariate_profile."
  else if
      (dropnaUnique (model_reference_dataset.getCol model_family_history_variable_name)).length ≠ 2
      ∨ ¬ ([0, 1].all (fun x =>
            x ∈ dropnaUnique (model_reference_dataset.getCol model_family_history_variable_name))) then
    .error "ERROR: family history variable in model_reference_dataset must be binary."
  else if
      (dropnaUnique (apply_covariate_profile.getCol model_family_history_variable_name)).length ≠ 2
      ∨ ¬ ([0, 1].all (fun x =>
            x ∈ dropnaUnique (apply_covariate_profile.getCol model_family_history_variable_name))) then
    .error "ERROR: family history variable in apply_covariate_profile must be binary."
  else .ok ()

/-- `List.zipWith` over three lists, truncating at the shortest, as a Python
`zip` of three sequences does. -/
def zipWith3 {α β γ δ : Type} (f : α → β → γ → δ) : List α → List β → List γ → List δ
  | a :: as, b :: bs, c :: cs => f a b c :: zipWith3 f as bs cs
  | _, _, _ => []

/-- Embedding of the sub-interval derivation of
`compute_absolute_risk_split_interval` in its scalar path
(absolute_risk_main.py lines 310-316): from the cut-point, the interval start
age and the interval length it derives the before-cut-point length, the
after-cut-point start age and the after-cut-point length, returned in that
order. -/
def split_interval_scalar (cutpoint apply_age_start apply_age_interval_length : ℤ) :
    ℤ × ℤ × ℤ :=
  let start_to_cutpoint := cutpoint - apply_age_start
  let before0 :=
    if start_to_cutpoint < apply_age_interval_length then start_to_cutpoint
    else apply_age_interval_length
  let age_interval_length_before_cutpoint := max before0 0
  let age_start_after_cutpoint := apply_age_start + age_interval_length_before_cutpoint
  let age_interval_length_after_cutpoint :=
    apply_age_start + apply_age_interval_length - age_start_after_cutpoint
  (age_interval_length_before_cutpoint, age_start_after_cutpoint,
    age_interval_length_after_cutpoint)

/-- Embedding of the sub-interval derivation of
`compute_absolute_risk_split_interval` in its list path
(absolute_risk_main.py lines 318-332): the three list comprehensions over
zipped inputs, returned as (before-cut-point lengths, after-cut-point starts,
after-cut-point lengths). -/
def split_interval_list (cutpoint apply_age_start apply_age_interval_length : List ℤ) :
    List ℤ × List ℤ × List ℤ :=
  let age_interval_length_before_cutpoint :=
    zipWith3 (fun cut start interval => max (min (cut - start) interval) 0)
      cutpoint apply_age_start apply_age_interval_length
  let age_start_after_cutpoint :=
    List.zipWith (· + ·) apply_age_start age_interval_length_before_cutpoint
  let age_interval_length_after_cutpoint :=
    zipWith3 (fun start interval start_after_cutpoint => start + interval - start_after_cutpoint)
      apply_age_start apply_age_interval_length age_start_after_cutpoint
  (age_interval_length_before_cutpoint, age_start_after_cutpoint,
    age_interval_length_after_cutpoint)

/-- A study record during validation, with the mandatory columns typed as
`ModelValidation._set_study_data` types them (model_validation.py lines
126-131): `observed_outcome`, `study_entry_age` and `study_exit_age` are
integers, `time_of_onset` is a float that may be infinite — `none` embeds
`inf` and `some t` a finite onset time. -/
structure StudyRecord where
  observed_outcome : ℤ
  study_entry_age : ℤ
  study_exit_age : ℤ
  time_of_onset : Option ℚ
deriving DecidableEq, Repr

/-- The derived `observed_followup` column (model_validation.py line 155). -/
def observed_followup (r : StudyRecord) : ℤ := r.study_exit_age - r.study_entry_age

/-- `time_of_onset <= b`, where `none` is `inf` (the comparison is false). -/
def onsetLE (o : Option ℚ) (b : ℚ) : Bool :=
  match o with
  | none => false
  | some t => t ≤ b

/-- `time_of_onset > b`, where `none` is `inf` (the comparison is true). -/
def onsetGT (o : Option ℚ) (b : ℚ) : Bool :=
  match o with
  | none => true
  | some t => b < t

/-- Embedding of the first censoring pass of `ModelValidation._set_study_data`
(model_validation.py lines 157-161): a row with `observed_outcome == 1` whose
`time_of_onset` exceeds the observed follow-up gets `observed_outcome = 0`
and `time_of_onset = inf`.  The pandas masked assignment is row-wise, so it
is embedded per record. -/
def censor_onset_after_observed_followup (r : StudyRecord) : StudyRecord :=
  if r.observed_outcome = 1 ∧ onsetGT r.time_of_onset (observed_followup r : ℚ) = true then
    { r with observed_outcome := 0, time_of_onset := none }
  else r

/-- A study record together with its `predicted_risk_interval` column. -/
structure IntervalRecord extends StudyRecord where
  predicted_risk_interval : ℤ
deriving DecidableEq, Repr

/-- Embedding of `ModelValidation._set_predicted_time_interval` in its
integer path (model_validation.py lines 169-174): the single integer interval
is assigned to every record. -/
def set_predicted_time_interval_int (k : ℤ) (r : StudyRecord) : IntervalRecord :=
  { r with predicted_risk_interval := k }

/-- A study record after `_calculate_followup_period`, carrying the derived
`followup` column. -/
structure FollowupRecord extends IntervalRecord where
  followup : ℤ
deriving DecidableEq, Repr

/-- Embedding of `ModelValidation._calculate_followup_period`
(model_validation.py lines 183-205).  The three pandas masks read only
`time_of_onset`, `predicted_risk_interval` and `observed_followup`, none of
which is written by this pass, and the three written row sets are pairwise
disjoint, so the sequential masked assignments are the row-wise sequence of
conditionals below. -/
def calculate_followup_period (r : IntervalRecord) : FollowupRecord :=
  let f0 := observed_followup r.toStudyRecord
  let followup1 :=
    if onsetLE r.time_of_onset (r.predicted_risk_interval : ℚ) = true ∧
        r.predicted_risk_interval ≤ f0
    then r.predicted_risk_interval else f0
  let outcome2 :=
    if onsetGT r.time_of_onset (r.predicted_risk_interval : ℚ) = true ∧
        onsetLE r.time_of_onset (f0 : ℚ) = true
    then 0 else r.observed_outcome
  let followup2 :=
    if onsetGT r.time_of_onset (r.predicted_risk_interval : ℚ) = true ∧
        onsetLE r.time_of_onset (f0 : ℚ) = true
    then r.predicted_risk_interval else followup1
  let followup3 :=
    if r.predicted_risk_interval ≤ f0 ∧ onsetGT r.time_of_onset (f0 : ℚ) = true
    then r.predicted_risk_interval else followup2
  { r with observed_outcome := outcome2, followup := followup3 }

/-- The validation preprocessing pipeline on one record for a scalar integer
`predicted_risk_interval`, in the order `ModelValidation.__init__` runs it
(model_validation.py lines 108-110): the loading-time censoring pass, then
interval assignment, then the follow-up derivation pass. -/
def validation_followup_pipeline_int (k : ℤ) (r : StudyRecord) : FollowupRecord :=
  calculate_followup_period
    (set_predicted_time_interval_int k (censor_onset_after_observed_followup r))

/-- `np.min` over a list of integers; `none` on the empty list, where numpy
raises. -/
def npMinZ : List ℤ → Option ℤ
  | [] => none
  | a :: as => some (as.foldl min a)

/-- `np.max` over a list of integers; `none` on the empty list, where numpy
raises. -/
def npMaxZ : List ℤ → Option ℤ
  | [] => none
  | a :: as => some (as.foldl max a)

/-- Python `range(lo, hi)` over integers: lo, lo+1, ..., hi-1. -/
def rangeZ (lo hi : ℤ) : List ℤ :=
  (List.range (hi - lo).toNat).map (fun k => lo + k)

/-- A row of a 3-column hazard-rate table. -/
structure RateInterval where
  start_age : ℤ
  end_age : ℤ
  rate : ℚ
deriving DecidableEq, Repr

/-- IEEE float division of a possibly-NaN value by a count: NaN stays NaN; a
present value divided by a zero count is embedded as `none` like the NaN of
0/0.  In the loop of `format_flexible_rate_inputs` this models the
right-hand side `data_formatted.loc[i, "rate"] / idxs[0].shape[0]`, which
Python evaluates before the failing masked write. -/
def divOptNat (r : Option ℚ) (n : ℕ) : Option ℚ :=
  match r with
  | none => none
  | some q => if n = 0 then none else some (q / n)

/-- Embedding of `format_flexible_rate_inputs` on a 3-column table
(check_errors.py lines 34-45).  The per-age frame is indexed 0..n-1 with age
column `range(min(start_age), min(end_age))` — the source takes the MINIMUM
of `end_age` — and rate column initialized to all-NaN (`none`).  Iteration i
computes `idxs = np.where(...)`, the RAW numpy 1-tuple holding the selected
positions, evaluates the right-hand side `data_formatted.loc[i, "rate"]` —
a read from the OUTPUT frame; a pandas KeyError, embedded `none`, when label
i is beyond the frame — divided by `idxs[0].shape[0]`, and then executes
`data_formatted.loc[idxs, "rate"] = ...`.  That write passes the nested
1-tuple to `.loc`, whose list-like path (`asarray_tuplesafe`) converts the
2-D `np.asarray((array,))` into a one-element object array holding the
positions TUPLE as a single label; the label is absent from the integer
index 0..n-1, so `.loc` raises KeyError — embedded as `none` — on every
iteration.  Only an empty table (whose numpy `min` raises first, also
`none`) escapes the loop body. -/
def format_flexible_rate_inputs (rows : List RateInterval) :
    Option (List (ℤ × Option ℚ)) := do
  let minStart ← npMinZ (rows.map (·.start_age))
  let minEnd ← npMinZ (rows.map (·.end_age))
  let init : List (ℤ × Option ℚ) := (rangeZ minStart minEnd).map (fun a => (a, none))
  rows.enum.foldlM (fun frame ipair =>
    let i := ipair.1
    let row := ipair.2
    let idxs := (List.range frame.length).filter (fun p =>
      match frame.get? p with
      | some entry => decide (row.start_age ≤ entry.1 ∧ entry.1 ≤ row.end_age)
      | none => false)
    match frame.get? i with
    | none => none
    | some entry =>
      let _rhs := divOptNat entry.2 idxs.length
      -- the masked write with the raw np.where tuple as the .loc row key:
      -- KeyError, whatever the selected positions are
      (none : Option (List (ℤ × Option ℚ))))
    init

/-- The pandas-aligned difference
`data.loc[1:, "start_age"] - data.loc[:n-1, "end_age"]` of the contiguity
test (check_errors.py line 72): the left series has labels 1..n-1 and the
right labels 0..n-1, so alignment leaves label 0 with a missing left operand
(NaN) while label i >= 1 holds `start_age i - end_age i`. -/
def contiguity_diff (rows : List RateInterval) : List (Option ℚ) :=
  (List.range rows.length).map (fun i =>
    if i = 0 then none
    else match rows.get? i with
      | some row => some ((row.start_age : ℚ) - (row.end_age : ℚ))
      | none => none)

/-- Python builtin `sum` over a float series: any NaN poisons the total. -/
def sumOpt (l : List (Option ℚ)) : Option ℚ :=
  l.foldl (fun acc x =>
    match acc, x with
    | some a, some b => some (a + b)
    | _, _ => none) (some 0)

/-- The contiguity test of `check_flexible_rate_inputs` (check_errors.py
line 72): for more than one row, raise when the Python sum of the aligned
difference differs from 0 — NaN compares unequal to 0. -/
def contiguity_check_raises (rows : List RateInterval) : Bool :=
  decide (rows.length > 1) && !(sumOpt (contiguity_diff rows) == some 0)

/-- Embedding of the 3-column path of `check_flexible_rate_inputs`
(check_errors.py lines 67-80): the contiguity test, the rate range test, then
the hand-off to `format_flexible_rate_inputs`, whose uncaught exception
(`none`) propagates out of the check as well. -/
def check_flexible_rate_inputs_3col (rows : List RateInterval) :
    Except String (List (ℤ × Option ℚ)) :=
  if contiguity_check_raises rows then
    .error "ERROR: rates must cover sequential age intervals."
  else if rows.any (fun row => decide (row.rate < 0 ∨ 1 < row.rate)) then
    .error "ERROR: rates should be probabilities between 0 and 1."
  else
    match format_flexible_rate_inputs rows with
    | some frame => .ok frame
    | none => .error "KeyError: the raw np.where tuple used as a .loc row key is converted to a tuple label absent from the index."

/-- A two-column (age, rate) pandas DataFrame together with its row index
labels, which pandas keeps distinct from the column values: position p holds
label `index[p]`, age `age[p]` and rate `rate[p]`. -/
structure RateDF where
  index : List ℤ
  age : List ℤ
  rate : List ℚ
deriving DecidableEq, Repr

/-- Embedding of the 2-column path of `check_flexible_rate_inputs`
(check_errors.py lines 58-65 and 77-80).  The age-integrality test
`sum(data["age"] % 1) != 0` always passes here because ages are embedded as
integers; the rate range test is checked; `format_flexible_rate_inputs`
returns 2-column input unchanged (line 47), index included. -/
def check_flexible_rate_inputs_2col (data : RateDF) : Except String RateDF :=
  if data.rate.any (fun r => decide (r < 0 ∨ 1 < r)) then
    .error "ERROR: rates should be probabilities between 0 and 1."
  else .ok data

/-- Python `x in series` on a pandas Series tests membership among the INDEX
labels, not among the values. -/
def seriesContains (index : List ℤ) (x : ℤ) : Bool :=
  decide (x ∈ index)

/-- Embedding of `check_rates` (check_errors.py lines 83-109) for a 2-column
disease table and no competing table.  The synthesized competing table pairs
the disease ages with zero rates under a fresh default index 0..n-1 (lines
88-90).  The coverage tests (lines 95-107) iterate over
`range(min(apply_age_start), max(apply_age_start + apply_age_interval_length))`
and raise when some age x has `x not in series` — series membership, hence a
test against the index labels. -/
def check_rates_2col_no_competing (model_disease_incidence_rates : RateDF)
    (apply_age_start apply_age_interval_length : List ℤ) :
    Except String (RateDF × RateDF) := do
  let lambda_vals ← check_flexible_rate_inputs_2col model_disease_incidence_rates
  let competing0 : RateDF :=
    ⟨rangeZ 0 lambda_vals.age.length, lambda_vals.age,
      lambda_vals.age.map (fun _ => 0)⟩
  let model_competing_incidence_rates ← check_flexible_rate_inputs_2col competing0
  match npMinZ apply_age_start,
      npMaxZ (List.zipWith (· + ·) apply_age_start apply_age_interval_length) with
  | some lo, some hi =>
    if ((rangeZ lo hi).filter
        (fun x => ! seriesContains lambda_vals.index x)).length > 0 then
      .error "ERROR: model_disease_incidence_rates must have rates for each integer age covered by the prediction intervals."
    else if ((rangeZ lo hi).filter
        (fun x => ! seriesContains model_competing_incidence_rates.index x)).length > 0 then
      .error "ERROR: model_competing_incidence_rates must have rates for each integer age covered by the prediction intervals."
    else .ok (lambda_vals, model_competing_incidence_rates)
  | _, _ => .error "ERROR: numpy reduction over an empty age array."

/-- A validation study row as used by the incidence estimator; the
`sampling_weights` column is meaningful only in the nested case-control
mode. -/
structure IncidenceRow where
  study_entry_age : ℤ
  study_exit_age : ℤ
  time_of_onset : Option ℚ
  sampling_weights : ℚ
deriving DecidableEq, Repr

/-- The per-record weight of `_calculate_study_incidence_rates`
(model_validation.py lines 150-151 and 277-278): the `frequency` column
`1 / sampling_weights` for a nested case-control study, 1 otherwise. -/
def frequency (nested : Bool) (r : IncidenceRow) : ℚ :=
  if nested then 1 / r.sampling_weights else 1

/-- The onset age `study_entry_age + time_of_onset` (model_validation.py
line 275); an infinite onset stays infinite. -/
def age_of_onset (r : IncidenceRow) : Option ℚ :=
  r.time_of_onset.map (fun t => (r.study_entry_age : ℚ) + t)

/-- `(age_of_onset >= age) & (age_of_onset < age + 1)` (line 284), false for
an infinite onset. -/
def onset_at_age (r : IncidenceRow) (a : ℤ) : Bool :=
  match age_of_onset r with
  | none => false
  | some o => decide ((a : ℚ) ≤ o ∧ o < (a : ℚ) + 1)

/-- `age_of_onset >= age` (line 285), true for an infinite onset. -/
def onset_at_or_after_age (r : IncidenceRow) (a : ℤ) : Bool :=
  match age_of_onset r with
  | none => true
  | some o => decide ((a : ℚ) ≤ o)

/-- `in_study_at_age`: entered at or before age-1 and not exited before age
(lines 281-283). -/
def in_study_at_age (r : IncidenceRow) (a : ℤ) : Bool :=
  decide (r.study_entry_age ≤ a - 1 ∧ a ≤ r.study_exit_age)

/-- The boolean-mask dot product `(mask) @ frequency` of lines 287-288. -/
def mask_dot (nested : Bool) (rows : List IncidenceRow)
    (mask : IncidenceRow → Bool) : ℚ :=
  (rows.map (fun r => (if mask r then (1 : ℚ) else 0) * frequency nested r)).sum

/-- Embedding of `ModelValidation._calculate_study_incidence_rates`
(model_validation.py lines 272-291): for every integer age from
min(study_entry_age)+1 up to max(study_exit_age)-1, the weighted in-study
onset count at that age divided by the weighted at-risk count, NaN (`none`)
when the at-risk count is not positive; `none` overall on an empty dataset,
where the pandas min/max are NaN and `range` raises. -/
def calculate_study_incidence_rates (nested : Bool) (rows : List IncidenceRow) :
    Option (List (ℤ × Option ℚ)) := do
  let minEntry ← npMinZ (rows.map (·.study_entry_age))
  let maxExit ← npMaxZ (rows.map (·.study_exit_age))
  let ages := rangeZ (minEntry + 1) maxExit
  some (ages.map (fun a =>
    let num := mask_dot nested rows (fun r => in_study_at_age r a && onset_at_age r a)
    let den := mask_dot nested rows
      (fun r => in_study_at_age r a && onset_at_or_after_age r a)
    (a, if 0 < den then some (num / den) else none)))

/-- The life-table estimator as the specification words it: for each integer
age a from (minimum entry age + 1) to (maximum exit age - 1) INCLUSIVE, the
weighted count of in-study records whose onset age falls in [a, a+1) divided
by the weighted count of in-study records with onset age at or after a,
undefined (`none`) when the denominator is zero; weight 1 for standard
cohorts and 1/sampling_weights per record for nested case-control data. -/
def spec_life_table_incidence (nested : Bool) (rows : List IncidenceRow) :
    Option (List (ℤ × Option ℚ)) := do
  let minEntry ← npMinZ (rows.map (·.study_entry_age))
  let maxExit ← npMaxZ (rows.map (·.study_exit_age))
  let ages := rangeZ (minEntry + 1) ((maxExit - 1) + 1)
  some (ages.map (fun a =>
    let w := fun r : IncidenceRow =>
      if nested then 1 / r.sampling_weights else (1 : ℚ)
    let num := ((rows.filter
      (fun r => in_study_at_age r a && onset_at_age r a)).map w).sum
    let den := ((rows.filter
      (fun r => in_study_at_age r a && onset_at_or_after_age r a)).map w).sum
    (a, if den = 0 then none else some (num / den))))

/-- Where the reference risks and risk scores of the validation results come
from: supplied by the caller (stored as passed), computed by an
absolute-risk-engine run over the reference dataset (whose numeric outputs
live in `absolute_risk_model`, outside the sources under study), or
omitted. -/
inductive RefRiskSource where
  | supplied (reference_absolute_risk reference_risk_score : PyVal)
  | engineComputed (reference_entry_age reference_exit_age : PyVal)
  | omitted
deriving DecidableEq, Repr

/-- Modelled from the spec: `check_errors.check_reference_risks` is not under
`src/`; the specification names only a ReferenceInputError raised when
exactly one of the two reference inputs is supplied, and the function is
reached only when both are supplied (model_validation.py line 237), so it is
modelled as accepting. -/
def check_reference_risks
    (_reference_predicted_risks _reference_linear_predictors : PyVal) :
    Except String Unit := .ok ()

/-- Embedding of `ModelValidation._calculate_reference_risks`
(model_validation.py lines 231-270): when both reference inputs are not None
they are validated and stored as the results' reference risks and the engine
is not invoked; otherwise, when either reference age bound is None, nothing
is stored; otherwise the absolute-risk engine is invoked over the reference
dataset with the reference entry and exit ages. -/
def calculate_reference_risks (reference_entry_age reference_exit_age
    reference_predicted_risks reference_linear_predictors : PyVal) :
    Except String RefRiskSource :=
  if !reference_predicted_risks.isNone && !reference_linear_predictors.isNone then
    match check_reference_risks reference_predicted_risks
        reference_linear_predictors with
    | .error e => .error e
    | .ok _ => .ok (.supplied reference_predicted_risks reference_linear_predictors)
  else if reference_entry_age.isNone || reference_exit_age.isNone then
    .ok .omitted
  else
    .ok (.engineComputed reference_entry_age reference_exit_age)

/-- The reference-risk stage of `ModelValidation.__init__`
(model_validation.py lines 89-116), with the parameters IN THE ORDER OF THE
`__init__` SIGNATURE; the stage forwards the four reference arguments to
`_calculate_reference_risks`. -/
def ModelValidation_init_reference_stage
    (_study_data_path _predicted_risk_interval _icare_model_parameters
     _predicted_risk_variable_name _linear_predictor_variable_name
     _number_of_percentiles _linear_predictor_cutoffs _dataset_name _model_name
     reference_entry_age reference_exit_age
     reference_predicted_risks reference_linear_predictors
     _seed : PyVal) : Except String RefRiskSource :=
  calculate_reference_risks reference_entry_age reference_exit_age
    reference_predicted_risks reference_linear_predictors

/-- Embedding of the `ModelValidation` construction inside
`validate_absolute_risk_model` (absolute_risk_main.py lines 509-513): the
fourteen arguments are passed POSITIONALLY, in the call-site order of the
source, to the `__init__` parameter list above. -/
def validate_absolute_risk_model_reference
    (study_data_path predicted_risk_interval icare_model_parameters
     predicted_risk_variable_name linear_predictor_variable_name
     reference_entry_age reference_exit_age
     reference_predicted_risks reference_linear_predictors
     number_of_percentiles linear_predictor_cutoffs
     dataset_name model_name seed : PyVal) : Except String RefRiskSource :=
  ModelValidation_init_reference_stage study_data_path predicted_risk_interval
    icare_model_parameters predicted_risk_variable_name
    linear_predictor_variable_name reference_entry_age reference_exit_age
    reference_predicted_risks reference_linear_predictors
    number_of_percentiles linear_predictor_cutoffs dataset_name model_name seed

end ICare

namespace ICare

/-- C9: `check_age_intervals` raises `ValueError` for every possible input,
because its first guard — not an int, or not a list — is true of every
Python value. -/
theorem check_age_intervals_always_raises (a b : PyVal) :
    check_age_intervals a b =
      .error "ERROR: apply_age_start must be an integer or a list of integers." := by
  cases a with
  | atom x => cases x <;> rfl
  | pyList xs => rfl

/-- C10: `check_family_history` raises the string-type error exactly when the
variable name IS a string; in particular every string name fails immediately,
and the remaining checks are reachable only for non-string names. -/
theorem check_family_history_string_error_iff
    (name : PyVal) (ref prof : FHFrame) :
    check_family_history name ref prof =
        .error "ERROR: model_family_history_variable_name must be a string."
      ↔ name.isStr = true := by
  unfold check_family_history
  by_cases h : name.isStr = true
  · simp [h]
  · simp only [h, Bool.false_eq_true, if_false, iff_false]
    split_ifs <;> simp

/-- Closed form of the scalar sub-interval derivation: the if-expression of
the source is the min, and the after-cut-point quantities simplify. -/
theorem split_interval_scalar_closed (c s l : ℤ) :
    split_interval_scalar c s l =
      (max (min (c - s) l) 0, s + max (min (c - s) l) 0,
        l - max (min (c - s) l) 0) := by
  unfold split_interval_scalar
  dsimp only
  split_ifs with h <;> simp only [Prod.mk.injEq] <;> omega

/-- The list path of the sub-interval derivation computes, element by
element, exactly what the scalar path computes. -/
theorem split_interval_list_eq_map (cs ss ls : List ℤ) :
    split_interval_list cs ss ls =
      ((zipWith3 split_interval_scalar cs ss ls).map (·.1),
       (zipWith3 split_interval_scalar cs ss ls).map (·.2.1),
       (zipWith3 split_interval_scalar cs ss ls).map (·.2.2)) := by
  induction cs generalizing ss ls with
  | nil => cases ss <;> cases ls <;> rfl
  | cons c cs ih =>
    cases ss with
    | nil => rfl
    | cons s ss =>
      cases ls with
      | nil => rfl
      | cons l ls =>
        have h := ih ss ls
        simp only [split_interval_list, zipWith3, List.zipWith, List.map,
          Prod.mk.injEq, List.cons.injEq] at h ⊢
        refine ⟨⟨?_, h.1⟩, ⟨?_, h.2.1⟩, ⟨?_, h.2.2⟩⟩ <;>
          (simp only [split_interval_scalar_closed]; try omega)

/-- C5: the sub-interval derivation of `compute_absolute_risk_split_interval`
yields a before-cut-point length equal to `clamp(min(C - start, L), 0, L)`,
an after-cut-point start equal to `start + before_length`, and lengths
summing back to `L`, so the two sub-intervals partition the original
interval; the list path agrees with the scalar derivation element by
element. -/
theorem split_interval_partition
    (apply_age_start apply_age_interval_length cutpoint : ℤ)
    (cuts starts lens : List ℤ)
    (h : 0 ≤ apply_age_interval_length) :
    (split_interval_scalar cutpoint apply_age_start apply_age_interval_length).1 =
        min (max (min (cutpoint - apply_age_start) apply_age_interval_length) 0)
          apply_age_interval_length ∧
    (split_interval_scalar cutpoint apply_age_start apply_age_interval_length).2.1 =
        apply_age_start +
          (split_interval_scalar cutpoint apply_age_start apply_age_interval_length).1 ∧
    (split_interval_scalar cutpoint apply_age_start apply_age_interval_length).1 +
        (split_interval_scalar cutpoint apply_age_start apply_age_interval_length).2.2 =
        apply_age_interval_length ∧
    split_interval_list cuts starts lens =
      ((zipWith3 split_interval_scalar cuts starts lens).map (·.1),
       (zipWith3 split_interval_scalar cuts starts lens).map (·.2.1),
       (zipWith3 split_interval_scalar cuts starts lens).map (·.2.2)) := by
  refine ⟨?_, ?_, ?_, split_interval_list_eq_map cuts starts lens⟩ <;>
    simp only [split_interval_scalar_closed] <;> omega

/-- Witness for C5 at the concrete interval [30, 40) with cut age 35. -/
theorem split_interval_partition_witness :
    (0:ℤ) ≤ 10 ∧
    ((split_interval_scalar 35 30 10).1 = min (max (min (35 - 30) 10) 0) 10 ∧
     (split_interval_scalar 35 30 10).2.1 = 30 + (split_interval_scalar 35 30 10).1 ∧
     (split_interval_scalar 35 30 10).1 + (split_interval_scalar 35 30 10).2.2 = 10 ∧
     split_interval_list [35] [30] [10] =
       ((zipWith3 split_interval_scalar [35] [30] [10]).map (·.1),
        (zipWith3 split_interval_scalar [35] [30] [10]).map (·.2.1),
        (zipWith3 split_interval_scalar [35] [30] [10]).map (·.2.2))) :=
  ⟨by decide, split_interval_partition 30 10 35 [35] [30] [10] (by decide)⟩

/-- C2: for the record (outcome 1, entry 50, exit 60, onset 8) with a 5-year
predicted risk interval, the derived followup is 5 and the outcome after the
followup-derivation pass is 0. -/
theorem validation_followup_five_years :
    (validation_followup_pipeline_int 5 ⟨1, 50, 60, some 8⟩).followup = 5 ∧
    (validation_followup_pipeline_int 5 ⟨1, 50, 60, some 8⟩).observed_outcome = 0 := by
  decide

/-- Counterexample for C3: for the same record with a 10-year predicted risk
interval the code derives followup 10, not 8 as claimed. -/
theorem validation_followup_ten_years_not_eight :
    ¬ ((validation_followup_pipeline_int 10 ⟨1, 50, 60, some 8⟩).followup = 8 ∧
       (validation_followup_pipeline_int 10 ⟨1, 50, 60, some 8⟩).observed_outcome = 1) := by
  decide

/-- C3 amended: for the record (outcome 1, entry 50, exit 60, onset 8) with a
10-year predicted risk interval, the derived followup is 10 (the predicted
interval: onset falls within the interval and the interval does not exceed
the observed follow-up) and the outcome stays 1. -/
theorem validation_followup_ten_years :
    (validation_followup_pipeline_int 10 ⟨1, 50, 60, some 8⟩).followup = 10 ∧
    (validation_followup_pipeline_int 10 ⟨1, 50, 60, some 8⟩).observed_outcome = 1 := by
  decide

/-- Counterexample for C8: a record with `observed_outcome = 0` whose onset
time 15 exceeds its observed follow-up 10 is NOT forced to censored by the
loading pass — its `time_of_onset` stays finite, though the claim says every
such record ends with `time_of_onset` infinite. -/
theorem censor_pass_skips_noncases :
    onsetGT (StudyRecord.time_of_onset ⟨0, 50, 60, some 15⟩)
        (observed_followup ⟨0, 50, 60, some 15⟩ : ℚ) = true ∧
    (censor_onset_after_observed_followup ⟨0, 50, 60, some 15⟩).time_of_onset ≠ none := by
  decide

/-- C8 amended: the loading-time censoring pass forces to censored exactly
the records with `observed_outcome = 1` whose onset time exceeds the observed
follow-up — those end with outcome 0 and infinite onset — and leaves every
other record unchanged. -/
theorem censor_pass_characterization (r : StudyRecord) :
    ((r.observed_outcome = 1 ∧
        onsetGT r.time_of_onset (observed_followup r : ℚ) = true) →
      (censor_onset_after_observed_followup r).observed_outcome = 0 ∧
      (censor_onset_after_observed_followup r).time_of_onset = none) ∧
    (¬ (r.observed_outcome = 1 ∧
        onsetGT r.time_of_onset (observed_followup r : ℚ) = true) →
      censor_onset_after_observed_followup r = r) := by
  unfold censor_onset_after_observed_followup
  split_ifs with h <;> simp [h]

/-- Witness for C8 amended at a record with outcome 1 and onset 15 past its
10-year observed follow-up. -/
theorem censor_pass_characterization_witness :
    (censor_onset_after_observed_followup ⟨1, 50, 60, some 15⟩).observed_outcome = 0 ∧
    (censor_onset_after_observed_followup ⟨1, 50, 60, some 15⟩).time_of_onset = none :=
  (censor_pass_characterization ⟨1, 50, 60, some 15⟩).1 ⟨rfl, by decide⟩

/-- C1 fails on the code: the one-interval table (start 30, end 32, rate
3/10) passes the contiguity and rate-range validations of
`check_flexible_rate_inputs` — the result is not one of the two validation
errors — but `format_flexible_rate_inputs` then raises in its first loop
iteration: the masked write hands the raw `np.where` tuple to `.loc`, which
converts it to a tuple label absent from the integer index and raises
KeyError.  No per-age table is ever returned, so no redistributed per-age
rates exist, let alone ones covering ages 30 to 32 and summing to the
interval rate 3/10. -/
theorem format_flexible_rate_inputs_raises_keyerror :
    check_flexible_rate_inputs_3col [⟨30, 32, mkRat 3 10⟩] =
      .error "KeyError: the raw np.where tuple used as a .loc row key is converted to a tuple label absent from the index." := by
  decide

/-- C7 fails on the code: the accepted disease table with one row (age 40,
rate 1/2) under the pandas default index [0] has a rate for every integer
age of the prediction interval given by start 40 and length 1, yet
`check_rates` raises the disease coverage error, because `x in series` tests
the pandas index labels, not the age values. -/
theorem check_rates_tests_index_not_ages :
    ((rangeZ 40 41).all (fun x => decide (x ∈ ([40] : List ℤ))) = true) ∧
    check_rates_2col_no_competing ⟨[0], [40], [mkRat 1 2]⟩ [40] [1] =
      .error "ERROR: model_disease_incidence_rates must have rates for each integer age covered by the prediction intervals." :=
  ⟨by decide, by decide⟩

/-- The mask dot product over the frequency vector is the weighted count of
the rows satisfying the mask. -/
theorem mask_dot_eq_filter_sum (nested : Bool) (rows : List IncidenceRow)
    (mask : IncidenceRow → Bool) :
    mask_dot nested rows mask =
      ((rows.filter mask).map (frequency nested)).sum := by
  induction rows with
  | nil => rfl
  | cons r rs ih =>
    unfold mask_dot at ih ⊢
    simp only [List.map_cons, List.sum_cons, List.filter_cons]
    by_cases h : mask r = true
    · rw [if_pos h, if_pos h, List.map_cons, List.sum_cons, one_mul, ih]
    · rw [if_neg h, if_neg h, zero_mul, zero_add, ih]

/-- Every per-record frequency is positive when the sampling weights are. -/
theorem frequency_pos (nested : Bool) (r : IncidenceRow)
    (hw : nested = true → 0 < r.sampling_weights) :
    0 < frequency nested r := by
  unfold frequency
  cases nested with
  | false => norm_num
  | true =>
    simp only [if_true]
    exact one_div_pos.mpr (hw rfl)

/-- A weighted count over positively weighted rows is nonnegative. -/
theorem mask_dot_nonneg (nested : Bool) (rows : List IncidenceRow)
    (mask : IncidenceRow → Bool)
    (hw : nested = true → ∀ r ∈ rows, 0 < r.sampling_weights) :
    0 ≤ mask_dot nested rows mask := by
  unfold mask_dot
  apply List.sum_nonneg
  intro x hx
  simp only [List.mem_map] at hx
  obtain ⟨r, hr, rfl⟩ := hx
  have hfreq : 0 ≤ frequency nested r :=
    le_of_lt (frequency_pos nested r (fun hn => hw hn r hr))
  by_cases h : mask r <;> simp [h, hfreq]

/-- C4: over every study dataset whose sampling weights are positive (in the
nested case-control mode), `_calculate_study_incidence_rates` computes
exactly the life-table estimator the specification describes: same ages
(from min entry age + 1 through max exit age - 1), same weighted counts,
and NaN exactly when the at-risk denominator is zero. -/
theorem study_incidence_rates_match_spec (nested : Bool)
    (rows : List IncidenceRow)
    (hw : nested = true → ∀ r ∈ rows, 0 < r.sampling_weights) :
    calculate_study_incidence_rates nested rows =
      spec_life_table_incidence nested rows := by
  unfold calculate_study_incidence_rates spec_life_table_incidence
  cases hmin : npMinZ (rows.map (·.study_entry_age)) with
  | none => rfl
  | some minEntry =>
    cases hmax : npMaxZ (rows.map (·.study_exit_age)) with
    | none => rfl
    | some maxExit =>
      simp only [Option.bind_eq_bind, Option.some_bind, sub_add_cancel,
        Option.some.injEq]
      apply List.map_congr_left
      intro a _
      have hnum := mask_dot_eq_filter_sum nested rows
        (fun r => in_study_at_age r a && onset_at_age r a)
      have hden := mask_dot_eq_filter_sum nested rows
        (fun r => in_study_at_age r a && onset_at_or_after_age r a)
      have hdpos := mask_dot_nonneg nested rows
        (fun r => in_study_at_age r a && onset_at_or_after_age r a) hw
      have hwfreq : (fun r : IncidenceRow =>
          if nested then 1 / r.sampling_weights else (1 : ℚ)) =
          frequency nested := rfl
      rw [hwfreq, ← hnum, ← hden]
      by_cases hz :
          mask_dot nested rows
            (fun r => in_study_at_age r a && onset_at_or_after_age r a) = 0
      · simp [hz]
      · have : 0 < mask_dot nested rows
            (fun r => in_study_at_age r a && onset_at_or_after_age r a) :=
          lt_of_le_of_ne hdpos (Ne.symm hz)
        simp [hz, this]

/-- Witness for C4 on a concrete nested case-control dataset of two rows. -/
theorem study_incidence_rates_match_spec_witness :
    (∀ r ∈ [(⟨50, 52, some 1, 2⟩ : IncidenceRow), ⟨50, 53, none, 4⟩],
        0 < r.sampling_weights) ∧
    calculate_study_incidence_rates true
        [⟨50, 52, some 1, 2⟩, ⟨50, 53, none, 4⟩] =
      spec_life_table_incidence true
        [⟨50, 52, some 1, 2⟩, ⟨50, 53, none, 4⟩] :=
  ⟨by decide,
    study_incidence_rates_match_spec true
      [⟨50, 52, some 1, 2⟩, ⟨50, 53, none, 4⟩] (fun _ => by decide)⟩

/-- C6 fails on the code: with both reference lists supplied (and the default
dataset and model names), the validation results record the dataset-name and
model-name STRINGS as the reference risks, not the supplied lists — the call
inside `validate_absolute_risk_model` passes its arguments positionally in
an order that does not match the `ModelValidation.__init__` parameter
list, so `reference_predicted_risks` and `reference_linear_predictors`
receive `dataset_name` and `model_name`.  The engine is indeed not invoked,
but the stored values are wrong. -/
theorem validate_reference_risks_scrambled :
    validate_absolute_risk_model_reference
        (.atom (.aStr "study.csv")) (.atom (.aInt 5)) (.atom .aNone)
        (.atom .aNone) (.atom .aNone)
        (.atom .aNone) (.atom .aNone)
        (.pyList [.aFloat (mkRat 1 10), .aFloat (mkRat 2 10)])
        (.pyList [.aFloat (mkRat 3 10), .aFloat (mkRat 4 10)])
        (.atom (.aInt 10)) (.atom .aNone)
        (.atom (.aStr "Example dataset"))
        (.atom (.aStr "Example risk prediction model"))
        (.atom .aNone) =
      .ok (.supplied (.atom (.aStr "Example dataset"))
        (.atom (.aStr "Example risk prediction model"))) ∧
    RefRiskSource.supplied (.atom (.aStr "Example dataset"))
        (.atom (.aStr "Example risk prediction model")) ≠
      RefRiskSource.supplied (.pyList [.aFloat (mkRat 1 10), .aFloat (mkRat 2 10)])
        (.pyList [.aFloat (mkRat 3 10), .aFloat (mkRat 4 10)]) :=
  ⟨by decide, by decide⟩

end ICare
